import Mathlib

/-!
Shallow embedding of the IllumiGallery wallpaper-gallery core
(src/scripts/utils.js: Utils + Gallery, src/unnamed/part_000: Lightbox,
src/scripts/animations.js: AnimationManager).

Conventions of the embedding:
* JS numbers that hold integer dimensions / indices are modelled as `Int`
  (dimensions are never validated, so zero/negative values must be
  representable); counters that are naturally non-negative use `Nat`.
* The JS remainder operator `%` truncates toward zero; it is modelled by
  `jsMod` below (`Int.tmod`).
* DOM side effects (class toggling, counter text, image loading) are not part
  of component state; the one piece of component state the source keeps in the
  DOM — the `active` band of the vertical poster wall, read back by
  `navigateVerticalGallery` from the item classes — is modelled as the field
  `verticalActiveIndex`.
* Persistence (`Utils.saveToJSON`) and re-rendering are observable effects of
  a batch import; `handleFileImport` returns the list of emitted effects so
  that "persists once / renders once" is a statement about that list.
* `setInterval` / `clearInterval` are modelled by an explicit `TimerWorld`
  holding the set of live interval handles and a fresh-handle counter.
-/

/-- One imported image record, as synthesized by `Gallery.addWallpaper`. -/
structure Wallpaper where
  id : String
  name : String
  originalName : String
  size : Nat
  width : Int
  height : Int
  type : String
  thumbnail : String
  url : String
  uploadedAt : String
  tags : List String
deriving DecidableEq

/-- A raw file handed to the import path. `decoded` is the result of the
asynchronous image decode (`Utils.getImageDimensions` / thumbnail
generation): `none` means the browser cannot decode the resource, in which
case both helpers reject. -/
structure Resource where
  name : String
  size : Nat
  type : String
  url : String
  thumbnail : String
  decoded : Option (Int × Int)
deriving DecidableEq

/-- JS `a % b` on integers: remainder truncated toward zero. -/
def jsMod (a b : Int) : Int := Int.tmod a b

namespace Utils

/-- Utils.isLandscape: `width > height`. -/
def isLandscape (width height : Int) : Bool := width > height

/-- Utils.isPortrait: `height >= width`. -/
def isPortrait (width height : Int) : Bool := height ≥ width

/-- Index of the last occurrence of a character in a character list,
`none` if absent (the core of JS `String.prototype.lastIndexOf`). -/
def lastIndexOfAux (c : Char) : List Char → Option Nat
  | [] => none
  | a :: rest =>
    match lastIndexOfAux c rest with
    | some k => some (k + 1)
    | none => if a = c then some 0 else none

/-- JS `filename.lastIndexOf('.')`: index of the last dot, `-1` if none. -/
def lastIndexOfDot (filename : String) : Int :=
  match lastIndexOfAux '.' filename.toList with
  | none => -1
  | some k => (k : Int)

/-- Utils.getFileExtension:
`filename.slice((filename.lastIndexOf('.') - 1 >>> 0) + 2).toLowerCase()`.
`>>> 0` reinterprets the signed 32-bit value as an unsigned one, so a missing
dot (index `-1`) and a leading dot (index `0`) both produce a slice start far
past the end of the string, giving the empty extension. -/
def getFileExtension (filename : String) : String :=
  let start : Nat := ((lastIndexOfDot filename - 1).emod (2 ^ 32)).toNat + 2
  String.mk ((filename.toList.drop start).map Char.toLower)

/-- The accepted image file extensions of Utils.isImage. -/
def validExtensions : List String := ["jpg", "jpeg", "png", "webp"]

/-- Utils.isImage: the file's extension is in the accepted set. -/
def isImage (file : Resource) : Bool :=
  validExtensions.contains (getFileExtension file.name)

end Utils

/-- The per-category animation selection
(`animationSettings` in Gallery, `currentSettings` in AnimationManager). -/
structure AnimSettings where
  landscape : String
  portrait : String
deriving DecidableEq

/-- The world of live `setInterval` handles: the set of handles currently
scheduled, plus a supply of fresh (positive, hence truthy) handle values. -/
structure TimerWorld where
  activeIntervals : List Nat
  nextHandle : Nat
deriving DecidableEq

/-- The observable effects of a batch import: one write through the Storage
Gateway (`Utils.saveToJSON`) and one re-render of both surfaces. -/
inductive GEvent where
  | persist
  | render
deriving DecidableEq

/-- The state of the Gallery class (fields of its constructor). The DOM-held
`active` band of the vertical poster wall is modelled as
`verticalActiveIndex`; `slideInterval` is the interval handle or `null`. -/
structure GalleryState where
  wallpapers : List Wallpaper
  landscapeWallpapers : List Wallpaper
  portraitWallpapers : List Wallpaper
  currentSlideIndex : Int
  isPlaying : Bool
  slideInterval : Option Nat
  animationSettings : AnimSettings
  isFullscreen : Bool
  verticalActiveIndex : Int
deriving DecidableEq

namespace Gallery

/-- Field values set by the Gallery constructor (before `init()` runs). -/
def initial : GalleryState where
  wallpapers := []
  landscapeWallpapers := []
  portraitWallpapers := []
  currentSlideIndex := 0
  isPlaying := false
  slideInterval := none
  animationSettings := { landscape := "slide", portrait := "slide" }
  isFullscreen := false
  verticalActiveIndex := 0

/-- Gallery.classifyWallpapers: rebuild the two derived sub-lists from the
master list. The source assigns two freshly `filter`ed arrays; the previously
held sub-list arrays are never mutated in place. -/
def classifyWallpapers (g : GalleryState) : GalleryState :=
  let land := g.wallpapers.filter (fun w => Utils.isLandscape w.width w.height)
  let port := g.wallpapers.filter (fun w => Utils.isPortrait w.width w.height)
  { g with landscapeWallpapers := land, portraitWallpapers := port }

/-- Gallery.renderGallery = renderLandscapeSlider + renderVerticalGallery +
updateSlideCounter. `renderLandscapeSlider` resets `currentSlideIndex` to 0
only when the landscape sub-list is non-empty (the empty case returns before
the reset); `renderVerticalGallery` marks item 0 `active` in both cases. -/
def renderGallery (g : GalleryState) : GalleryState :=
  let g1 :=
    if g.landscapeWallpapers.length = 0 then g
    else { g with currentSlideIndex := 0 }
  { g1 with verticalActiveIndex := 0 }

/-- Gallery.addWallpaper: decode dimensions and thumbnail (both reject when
the resource is undecodable, modelled by `decoded = none`, in which case the
error is logged and re-thrown: result `none`), then synthesize a record and
append it to the master list, then re-classify. `gen` feeds
`Utils.generateId`; `now` is the current timestamp string. -/
def addWallpaper (g : GalleryState) (file : Resource) (gen : Nat)
    (now : String) : Option GalleryState :=
  match file.decoded with
  | none => none
  | some (w, h) =>
    let wallpaper : Wallpaper :=
      { id := toString gen
        name := file.name
        originalName := file.name
        size := file.size
        width := w
        height := h
        type := file.type
        thumbnail := file.thumbnail
        url := file.url
        uploadedAt := now
        tags := [] }
    some (classifyWallpapers { g with wallpapers := g.wallpapers ++ [wallpaper] })

/-- The `for (const file of files)` loop of Gallery.handleFileImport: files
failing the extension check are skipped; an accepted file is added via
`addWallpaper`, whose thrown decode failure escapes the loop (the enclosing
try/catch is around the whole loop), carrying the state reached so far. -/
def importLoop (g : GalleryState) (gen : Nat) (now : String) :
    List Resource → Except GalleryState (GalleryState × Nat)
  | [] => .ok (g, gen)
  | file :: rest =>
    if Utils.isImage file then
      match addWallpaper g file gen now with
      | some g1 => importLoop g1 (gen + 1) now rest
      | none => .error g
    else importLoop g gen now rest

/-- Gallery.handleFileImport: empty selection returns immediately; otherwise
the import loop runs inside a single try/catch. Only if the whole loop
completes are `saveWallpapers()` (one persist) and `renderGallery()` (one
render) reached; a thrown decode failure lands in the catch, which just logs,
so neither effect is emitted. Returns the final state and the effect list. -/
def handleFileImport (g : GalleryState) (gen : Nat) (now : String)
    (files : List Resource) : GalleryState × List GEvent :=
  if files.length = 0 then (g, [])
  else
    match importLoop g gen now files with
    | .ok (g1, _) => (renderGallery g1, [.persist, .render])
    | .error g1 => (g1, [])

/-- Gallery.prevSlide: guarded only against an empty landscape sub-list;
retreats the cursor with JS modulo. Slide-transition classes and the counter
text are DOM effects. -/
def prevSlide (g : GalleryState) : GalleryState :=
  if g.landscapeWallpapers.length = 0 then g
  else
    let n : Int := (g.landscapeWallpapers.length : Int)
    { g with currentSlideIndex := jsMod (g.currentSlideIndex - 1 + n) n }

/-- Gallery.nextSlide: guarded only against an empty landscape sub-list;
advances the cursor with JS modulo. -/
def nextSlide (g : GalleryState) : GalleryState :=
  if g.landscapeWallpapers.length = 0 then g
  else
    let n : Int := (g.landscapeWallpapers.length : Int)
    { g with currentSlideIndex := jsMod (g.currentSlideIndex + 1) n }

/-- Gallery.navigateVerticalGallery: no-op when the portrait sub-list is
empty; otherwise reads the current `active` item index back from the DOM
items (one item per portrait wallpaper after a render), adds the direction,
and wraps explicitly at both ends. -/
def navigateVerticalGallery (g : GalleryState) (direction : Int) :
    GalleryState :=
  if g.portraitWallpapers.length = 0 then g
  else
    let n : Int := (g.portraitWallpapers.length : Int)
    let newIndex := g.verticalActiveIndex + direction
    let newIndex :=
      if newIndex < 0 then n - 1 else if newIndex ≥ n then 0 else newIndex
    { g with verticalActiveIndex := newIndex }

/-- Gallery.startSlideShow: an already-set interval handle (truthy) makes the
call a no-op; otherwise a fresh interval is scheduled and its handle stored. -/
def startSlideShow (g : GalleryState) (w : TimerWorld) :
    GalleryState × TimerWorld :=
  match g.slideInterval with
  | some _ => (g, w)
  | none =>
    ({ g with slideInterval := some w.nextHandle },
     { activeIntervals := w.activeIntervals ++ [w.nextHandle]
       nextHandle := w.nextHandle + 1 })

/-- Gallery.stopSlideShow: when a handle is stored, `clearInterval` removes
it from the live set and the field is nilled; otherwise nothing happens. -/
def stopSlideShow (g : GalleryState) (w : TimerWorld) :
    GalleryState × TimerWorld :=
  match g.slideInterval with
  | some h =>
    ({ g with slideInterval := none },
     { w with activeIntervals := w.activeIntervals.filter (fun x => x ≠ h) })
  | none => (g, w)

/-- Gallery.togglePlay (with the play button present): flip `isPlaying`, then
start or stop the auto-advance interval accordingly. -/
def togglePlay (g : GalleryState) (w : TimerWorld) :
    GalleryState × TimerWorld :=
  let g1 := { g with isPlaying := !g.isPlaying }
  if g1.isPlaying then startSlideShow g1 w else stopSlideShow g1 w

end Gallery

/-- The payload of the `openLightbox` custom event:
`{ index, type, wallpapers }` (the `type` string does not influence the
Lightbox, which only reads `index` and `wallpapers`). -/
structure OpenRequest where
  index : Int
  wallpapers : List Wallpaper
deriving DecidableEq

/-- Which derived sub-list a navigator opens the preview from. -/
inductive WallType where
  | landscape
  | portrait
deriving DecidableEq

/-- The sub-list selected by `type === 'landscape' ? ... : ...` in
Gallery.openLightbox. -/
def GalleryState.subList (g : GalleryState) : WallType → List Wallpaper
  | .landscape => g.landscapeWallpapers
  | .portrait => g.portraitWallpapers

/-- Gallery.openLightbox: warns and emits nothing when the selected sub-list
is empty; otherwise clamps the index via
`Math.max(0, Math.min(index, wallpapers.length - 1))` and emits the
`openLightbox` event payload. -/
def Gallery.openLightbox (g : GalleryState) (index : Int) (t : WallType) :
    Option OpenRequest :=
  let wallpapers := g.subList t
  if wallpapers.length = 0 then none
  else
    let validIndex := max 0 (min index ((wallpapers.length : Int) - 1))
    some { index := validIndex, wallpapers := wallpapers }

/-- The state of the Lightbox class (the DOM nodes `lightbox` and
`lightboxImage` are assumed present, as on the page this runs on). -/
structure LightboxState where
  currentIndex : Int
  currentWallpapers : List Wallpaper
  isOpen : Bool
deriving DecidableEq

namespace Lightbox

/-- Field values set by the Lightbox constructor. -/
def initial : LightboxState where
  currentIndex := 0
  currentWallpapers := []
  isOpen := false

/-- Lightbox.open (named `doOpen` here, `open` being a Lean keyword):
returns untouched on an empty wallpaper list; otherwise stores
`data.index || 0` — which on integer input is just `data.index`, with no
range clamping — pins the passed list, and marks the box open. The image
load of the current index is an asynchronous DOM effect. -/
def doOpen (lb : LightboxState) (data : OpenRequest) : LightboxState :=
  if data.wallpapers.length = 0 then lb
  else
    { lb with currentIndex := data.index
              currentWallpapers := data.wallpapers
              isOpen := true }

/-- Lightbox.close: no-op when not open; otherwise clears `isOpen`. -/
def close (lb : LightboxState) : LightboxState :=
  if lb.isOpen = false then lb else { lb with isOpen := false }

/-- Lightbox.prev: early return when the pinned list has at most one entry;
otherwise retreat the cursor with JS modulo and reload the image. -/
def prev (lb : LightboxState) : LightboxState :=
  if lb.currentWallpapers.length ≤ 1 then lb
  else
    let n : Int := (lb.currentWallpapers.length : Int)
    { lb with currentIndex := jsMod (lb.currentIndex - 1 + n) n }

/-- Lightbox.next: early return when the pinned list has at most one entry;
otherwise advance the cursor with JS modulo and reload the image. -/
def next (lb : LightboxState) : LightboxState :=
  if lb.currentWallpapers.length ≤ 1 then lb
  else
    let n : Int := (lb.currentWallpapers.length : Int)
    { lb with currentIndex := jsMod (lb.currentIndex + 1) n }

end Lightbox

/-- The keys the two document-level keydown handlers inspect. -/
inductive Key where
  | arrowLeft
  | arrowRight
  | escape
  | space
  | other
deriving DecidableEq

/-- Lightbox.handleKeyboard: completely inert while the box is closed;
otherwise Escape closes, the arrow keys cycle the pinned snapshot. -/
def Lightbox.handleKeyboard (lb : LightboxState) (k : Key) : LightboxState :=
  if lb.isOpen = false then lb
  else
    match k with
    | .escape => Lightbox.close lb
    | .arrowLeft => Lightbox.prev lb
    | .arrowRight => Lightbox.next lb
    | _ => lb

/-- Gallery.handleKeyboardNavigation: unconditional — it never consults the
Lightbox. ArrowLeft/ArrowRight drive the landscape slideshow; space toggles
auto-advance. -/
def Gallery.handleKeyboardNavigation (g : GalleryState) (w : TimerWorld)
    (k : Key) : GalleryState × TimerWorld :=
  match k with
  | .arrowLeft => (Gallery.prevSlide g, w)
  | .arrowRight => (Gallery.nextSlide g, w)
  | .space => Gallery.togglePlay g w
  | _ => (g, w)

/-- The page-level composite state: the Gallery and Lightbox singletons
constructed by App.initComponents. -/
structure SystemState where
  gallery : GalleryState
  lightbox : LightboxState
deriving DecidableEq

/-- The full open path: Gallery.openLightbox builds and emits the
`openLightbox` event, whose only listener is Lightbox's `open` handler. -/
def openLightboxFull (sys : SystemState) (index : Int) (t : WallType) :
    SystemState :=
  match Gallery.openLightbox sys.gallery index t with
  | none => sys
  | some req => { sys with lightbox := Lightbox.doOpen sys.lightbox req }

/-- A Collection Store mutation: a batch import run against the gallery of a
composite state (the Lightbox object is not touched by any Gallery code). -/
def importIntoSystem (sys : SystemState) (gen : Nat) (now : String)
    (files : List Resource) : SystemState :=
  { sys with gallery := (Gallery.handleFileImport sys.gallery gen now files).1 }

/-- One document-level keydown: both registered listeners run on the same
event — Lightbox.handleKeyboard (registered first, in Lightbox.init) and
Gallery.handleKeyboardNavigation (registered in Gallery.initEventListeners).
Each mutates only its own object. -/
def dispatchKeydown (sys : SystemState) (w : TimerWorld) (k : Key) :
    SystemState × TimerWorld :=
  let lb := Lightbox.handleKeyboard sys.lightbox k
  let gw := Gallery.handleKeyboardNavigation sys.gallery w k
  ({ gallery := gw.1, lightbox := lb }, gw.2)

namespace AnimationManager

/-- Field values of AnimationManager's constructor: the built-in defaults. -/
def defaults : AnimSettings := { landscape := "slide", portrait := "slide" }

/-- AnimationManager.loadSettings: `Utils.getFromJSON` yields the persisted
record or `null`; a `null` keeps the in-memory settings, anything else is
spread over them. The only writer of this key is `saveSettings`, which always
stores a record with both fields, so a stored value overrides both. -/
def loadSettings (cur : AnimSettings) (stored : Option AnimSettings) :
    AnimSettings :=
  match stored with
  | none => cur
  | some s => s

/-- AnimationManager.saveSettings: persist the full current selection. -/
def saveSettings (cur : AnimSettings) : Option AnimSettings := some cur

/-- AnimationManager.selectAnimation, state part: set the chosen style id for
the clicked category (the selected-class shuffling is a DOM effect). -/
def selectAnimation (cur : AnimSettings) (t : WallType) (animationId : String) :
    AnimSettings :=
  match t with
  | .landscape => { cur with landscape := animationId }
  | .portrait => { cur with portrait := animationId }

end AnimationManager

/-! Concrete fixtures used by witnesses and counterexamples. -/

/-- An 800 × 600 (landscape) record. -/
def wpA : Wallpaper :=
  { id := "0", name := "a.png", originalName := "a.png", size := 10
    width := 800, height := 600, type := "image/png", thumbnail := "ta"
    url := "blob:a", uploadedAt := "", tags := [] }

/-- A 1000 × 500 (landscape) record. -/
def wpB : Wallpaper :=
  { id := "1", name := "b.png", originalName := "b.png", size := 11
    width := 1000, height := 500, type := "image/png", thumbnail := "tb"
    url := "blob:b", uploadedAt := "", tags := [] }

/-- A 600 × 800 (portrait) record. -/
def wpP : Wallpaper :=
  { id := "2", name := "p.png", originalName := "p.png", size := 12
    width := 600, height := 800, type := "image/png", thumbnail := "tp"
    url := "blob:p", uploadedAt := "", tags := [] }

/-- A 500 × 900 (portrait) record. -/
def wpQ : Wallpaper :=
  { id := "3", name := "q.png", originalName := "q.png", size := 13
    width := 500, height := 900, type := "image/png", thumbnail := "tq"
    url := "blob:q", uploadedAt := "", tags := [] }

/-- A malformed 0 × 0 record. -/
def wpZero : Wallpaper :=
  { id := "4", name := "z.png", originalName := "z.png", size := 14
    width := 0, height := 0, type := "image/png", thumbnail := "tz"
    url := "blob:z", uploadedAt := "", tags := [] }

/-- A malformed record with positive width and zero height. -/
def wpWideZero : Wallpaper :=
  { id := "5", name := "w.png", originalName := "w.png", size := 15
    width := 5, height := 0, type := "image/png", thumbnail := "tw"
    url := "blob:w", uploadedAt := "", tags := [] }

/-- An accepted resource that decodes to 800 × 600. -/
def resOkA : Resource :=
  { name := "a.png", size := 10, type := "image/png", url := "blob:a"
    thumbnail := "ta", decoded := some (800, 600) }

/-- An accepted resource whose decode fails. -/
def resBad : Resource :=
  { name := "b.png", size := 11, type := "image/png", url := "blob:b"
    thumbnail := "tb", decoded := none }

/-- An accepted resource that decodes to 600 × 800. -/
def resOkC : Resource :=
  { name := "c.png", size := 12, type := "image/png", url := "blob:c"
    thumbnail := "tc", decoded := some (600, 800) }

/-- A gallery holding one landscape record, classified and rendered. -/
def gOneLand : GalleryState :=
  Gallery.renderGallery
    (Gallery.classifyWallpapers { Gallery.initial with wallpapers := [wpA] })

/-- A gallery holding two landscape records, classified and rendered. -/
def gTwoLand : GalleryState :=
  Gallery.renderGallery
    (Gallery.classifyWallpapers
      { Gallery.initial with wallpapers := [wpA, wpB] })

/-- A gallery holding one portrait record, classified and rendered. -/
def gOnePort : GalleryState :=
  Gallery.renderGallery
    (Gallery.classifyWallpapers { Gallery.initial with wallpapers := [wpP] })

/-- A gallery holding the two malformed records, classified. -/
def gMalformed : GalleryState :=
  Gallery.classifyWallpapers
    { Gallery.initial with wallpapers := [wpZero, wpWideZero] }

/-- A lightbox pinned to a single-record snapshot. -/
def lbOneOpen : LightboxState :=
  { currentIndex := 0, currentWallpapers := [wpP], isOpen := true }

/-- A lightbox pinned to a two-record snapshot, open at index 1. -/
def lbTwoOpen : LightboxState :=
  { currentIndex := 1, currentWallpapers := [wpP, wpQ], isOpen := true }

/-- A page state whose gallery has one portrait record and a fresh lightbox. -/
def sysOnePort : SystemState :=
  { gallery := gOnePort, lightbox := Lightbox.initial }

/-- A page state with two landscape records and an open two-record overlay. -/
def sysBothOpen : SystemState :=
  { gallery := gTwoLand, lightbox := lbTwoOpen }

/-- A gallery with a stored interval handle, next to its timer world. -/
def gPlaying : GalleryState :=
  { Gallery.initial with isPlaying := true, slideInterval := some 1 }

/-- The timer world in which `gPlaying`'s interval handle 1 is live. -/
def wPlaying : TimerWorld := { activeIntervals := [1], nextHandle := 2 }

/-! Helper lemmas. -/

/-- Reducing the left summand of a sum modulo `b` does not change the sum's
residue. -/
lemma emod_add_left_reduce (a c b : Int) : (a % b + c) % b = (a + c) % b := by
  conv_rhs => rw [Int.add_emod]
  rw [Int.add_emod (a % b) c, Int.emod_emod_of_dvd _ dvd_rfl]

/-- On a non-negative dividend and positive divisor, the JS remainder agrees
with the mathematical (euclidean) one. -/
lemma jsMod_eq_emod (a b : Int) (ha : 0 ≤ a) (hb : 0 ≤ b) :
    jsMod a b = a % b := Int.tmod_eq_emod ha hb

/-- The two classification predicates are pointwise complementary. -/
lemma isLandscape_eq_not_isPortrait (w h : Int) :
    Utils.isLandscape w h = !Utils.isPortrait w h := by
  simp only [Utils.isLandscape, Utils.isPortrait, ← decide_not]
  exact decide_eq_decide.mpr (by omega)

/-- Filtering a list by the landscape predicate and by the portrait predicate
splits its length exactly. -/
lemma length_filter_landscape_add_portrait (l : List Wallpaper) :
    (l.filter (fun w => Utils.isLandscape w.width w.height)).length +
      (l.filter (fun w => Utils.isPortrait w.width w.height)).length =
      l.length := by
  induction l with
  | nil => rfl
  | cons a t ih =>
    simp only [List.filter_cons]
    rcases hp : Utils.isPortrait a.width a.height with _ | _
    · have hl : Utils.isLandscape a.width a.height = true := by
        rw [isLandscape_eq_not_isPortrait, hp]; rfl
      simp [hl, hp]
      omega
    · have hl : Utils.isLandscape a.width a.height = false := by
        rw [isLandscape_eq_not_isPortrait, hp]; rfl
      simp [hl, hp]
      omega

/-- `nextSlide` never changes the landscape sub-list. -/
lemma nextSlide_landscape (g : GalleryState) :
    (Gallery.nextSlide g).landscapeWallpapers = g.landscapeWallpapers := by
  unfold Gallery.nextSlide
  split <;> rfl

/-- Closed form of the `nextSlide` cursor update on a non-negative cursor. -/
lemma nextSlide_cursor (g : GalleryState)
    (hN : g.landscapeWallpapers.length ≠ 0) (hc : 0 ≤ g.currentSlideIndex) :
    (Gallery.nextSlide g).currentSlideIndex =
      (g.currentSlideIndex + 1) % (g.landscapeWallpapers.length : Int) := by
  unfold Gallery.nextSlide
  rw [if_neg hN]
  exact jsMod_eq_emod _ _ (by omega) (by positivity)

/-- Closed form of the `prevSlide` cursor update on a non-negative cursor. -/
lemma prevSlide_cursor (g : GalleryState)
    (hN : g.landscapeWallpapers.length ≠ 0) (hc : 0 ≤ g.currentSlideIndex) :
    (Gallery.prevSlide g).currentSlideIndex =
      (g.currentSlideIndex - 1 + (g.landscapeWallpapers.length : Int)) %
        (g.landscapeWallpapers.length : Int) := by
  unfold Gallery.prevSlide
  rw [if_neg hN]
  refine jsMod_eq_emod _ _ (by omega) (by positivity)

/-- Iterating `nextSlide` `k` times adds `k` to the cursor modulo the
landscape sub-list length, starting from an in-range cursor. -/
lemma nextSlide_iter (g : GalleryState)
    (hN : 0 < g.landscapeWallpapers.length)
    (hc : 0 ≤ g.currentSlideIndex)
    (hlt : g.currentSlideIndex < (g.landscapeWallpapers.length : Int)) :
    ∀ k : Nat,
      (Gallery.nextSlide^[k] g).landscapeWallpapers =
          g.landscapeWallpapers ∧
        (Gallery.nextSlide^[k] g).currentSlideIndex =
          (g.currentSlideIndex + (k : Int)) %
            (g.landscapeWallpapers.length : Int) := by
  intro k
  induction k with
  | zero =>
    refine ⟨rfl, ?_⟩
    simpa using (Int.emod_eq_of_lt hc hlt).symm
  | succ k ih =>
    obtain ⟨hland, hcur⟩ := ih
    rw [Function.iterate_succ_apply']
    have hN2 : (Gallery.nextSlide^[k] g).landscapeWallpapers.length ≠ 0 := by
      rw [hland]; omega
    have hcnn : 0 ≤ (Gallery.nextSlide^[k] g).currentSlideIndex := by
      rw [hcur]
      exact Int.emod_nonneg _ (by positivity)
    refine ⟨by rw [nextSlide_landscape, hland], ?_⟩
    rw [nextSlide_cursor _ hN2 hcnn, hland, hcur, emod_add_left_reduce]
    push_cast
    ring_nf

/-- `Lightbox.next` never changes the pinned snapshot. -/
lemma lightboxNext_wallpapers (lb : LightboxState) :
    (Lightbox.next lb).currentWallpapers = lb.currentWallpapers := by
  unfold Lightbox.next
  split <;> rfl

/-- Closed form of the `Lightbox.next` cursor update on a snapshot of at
least two records and a non-negative cursor. -/
lemma lightboxNext_cursor (lb : LightboxState)
    (hN : 2 ≤ lb.currentWallpapers.length) (hc : 0 ≤ lb.currentIndex) :
    (Lightbox.next lb).currentIndex =
      (lb.currentIndex + 1) % (lb.currentWallpapers.length : Int) := by
  unfold Lightbox.next
  rw [if_neg (by omega)]
  exact jsMod_eq_emod _ _ (by omega) (by positivity)

/-- Closed form of the `Lightbox.prev` cursor update on a snapshot of at
least two records and a non-negative cursor. -/
lemma lightboxPrev_cursor (lb : LightboxState)
    (hN : 2 ≤ lb.currentWallpapers.length) (hc : 0 ≤ lb.currentIndex) :
    (Lightbox.prev lb).currentIndex =
      (lb.currentIndex - 1 + (lb.currentWallpapers.length : Int)) %
        (lb.currentWallpapers.length : Int) := by
  unfold Lightbox.prev
  rw [if_neg (by omega)]
  refine jsMod_eq_emod _ _ (by omega) (by positivity)

/-- Iterating `Lightbox.next` `k` times on a snapshot of at least two
records adds `k` to the cursor modulo the snapshot length. -/
lemma lightboxNext_iter (lb : LightboxState)
    (hN : 2 ≤ lb.currentWallpapers.length)
    (hc : 0 ≤ lb.currentIndex)
    (hlt : lb.currentIndex < (lb.currentWallpapers.length : Int)) :
    ∀ k : Nat,
      (Lightbox.next^[k] lb).currentWallpapers = lb.currentWallpapers ∧
        (Lightbox.next^[k] lb).currentIndex =
          (lb.currentIndex + (k : Int)) %
            (lb.currentWallpapers.length : Int) := by
  intro k
  induction k with
  | zero =>
    refine ⟨rfl, ?_⟩
    simpa using (Int.emod_eq_of_lt hc hlt).symm
  | succ k ih =>
    obtain ⟨hwp, hcur⟩ := ih
    rw [Function.iterate_succ_apply']
    have hN2 : 2 ≤ (Lightbox.next^[k] lb).currentWallpapers.length := by
      rw [hwp]; omega
    have hcnn : 0 ≤ (Lightbox.next^[k] lb).currentIndex := by
      rw [hcur]
      exact Int.emod_nonneg _ (by positivity)
    refine ⟨by rw [lightboxNext_wallpapers, hwp], ?_⟩
    rw [lightboxNext_cursor _ hN2 hcnn, hwp, hcur, emod_add_left_reduce]
    push_cast
    ring_nf

/-- Advancing one step modulo `N ≥ 2` moves an in-range cursor. -/
lemma emod_succ_ne (c N : Int) (h2 : 2 ≤ N) (h0 : 0 ≤ c) (hN : c < N) :
    (c + 1) % N ≠ c := by
  rcases eq_or_lt_of_le (show c + 1 ≤ N by omega) with h | h
  · rw [h, Int.emod_self]
    omega
  · rw [Int.emod_eq_of_lt (by omega) h]
    omega

/-- Retreating one step modulo `N ≥ 2` moves an in-range cursor. -/
lemma emod_pred_ne (c N : Int) (h2 : 2 ≤ N) (h0 : 0 ≤ c) (hN : c < N) :
    (c - 1 + N) % N ≠ c := by
  rcases eq_or_lt_of_le h0 with h | h
  · rw [← h]
    rw [Int.emod_eq_of_lt (by omega) (by omega)]
    omega
  · have hsplit : c - 1 + N = (c - 1) + N * 1 := by ring
    rw [hsplit, Int.add_mul_emod_self_left, Int.emod_eq_of_lt (by omega) (by omega)]
    omega


/-! Claim theorems. -/

/-- C2: for every wallpaper record exactly one of the landscape predicate
(`width > height`) and the portrait predicate (`height >= width`) holds, and
after `classifyWallpapers` the two sub-lists' combined length equals the
master list's length, with no record a member of both sub-lists. -/
theorem c2_partition_totality (g : GalleryState) (r : Wallpaper) :
    Utils.isLandscape r.width r.height ≠ Utils.isPortrait r.width r.height ∧
      (Gallery.classifyWallpapers g).landscapeWallpapers.length +
          (Gallery.classifyWallpapers g).portraitWallpapers.length =
        (Gallery.classifyWallpapers g).wallpapers.length ∧
      ¬(r ∈ (Gallery.classifyWallpapers g).landscapeWallpapers ∧
          r ∈ (Gallery.classifyWallpapers g).portraitWallpapers) := by
  refine ⟨?_, ?_, ?_⟩
  · rw [isLandscape_eq_not_isPortrait]
    cases Utils.isPortrait r.width r.height <;> simp
  · exact length_filter_landscape_add_portrait g.wallpapers
  · rintro ⟨hl, hp⟩
    have h1 := List.of_mem_filter hl
    have h2 := List.of_mem_filter hp
    rw [isLandscape_eq_not_isPortrait, h2] at h1
    exact absurd h1 (by simp)

/-- C3: once the overlay has been opened (pinning whatever snapshot the open
request carried), a batch import into the Collection Store — which appends
records and recomputes the classification — leaves the overlay's pinned list
and its next/prev cycling over that list unchanged. -/
theorem c3_snapshot_pinning (sys : SystemState) (i : Int) (t : WallType)
    (gen : Nat) (now : String) (files : List Resource) (k : Nat) :
    (importIntoSystem (openLightboxFull sys i t) gen now files).lightbox =
        (openLightboxFull sys i t).lightbox ∧
      (importIntoSystem (openLightboxFull sys i t) gen now
            files).lightbox.currentWallpapers =
        (openLightboxFull sys i t).lightbox.currentWallpapers ∧
      Lightbox.next^[k]
          (importIntoSystem (openLightboxFull sys i t) gen now files).lightbox =
        Lightbox.next^[k] (openLightboxFull sys i t).lightbox ∧
      Lightbox.prev^[k]
          (importIntoSystem (openLightboxFull sys i t) gen now files).lightbox =
        Lightbox.prev^[k] (openLightboxFull sys i t).lightbox := by
  exact ⟨rfl, rfl, rfl, rfl⟩

/-- C7: loading animation settings with nothing persisted keeps the built-in
default `slide` for both categories, and selecting `zoom` for landscape,
persisting, and reloading over fresh defaults yields
`{landscape: zoom, portrait: slide}`. -/
theorem c7_animation_settings_roundtrip :
    AnimationManager.loadSettings AnimationManager.defaults none =
        { landscape := "slide", portrait := "slide" } ∧
      AnimationManager.loadSettings AnimationManager.defaults
          (AnimationManager.saveSettings
            (AnimationManager.selectAnimation
              (AnimationManager.loadSettings AnimationManager.defaults none)
              WallType.landscape "zoom")) =
        { landscape := "zoom", portrait := "slide" } := by
  exact ⟨rfl, rfl⟩

/-- C8: stopping the slideshow is idempotent — a second `stopSlideShow` on
the state and timer world left by a first one changes nothing; after any
stop the stored interval handle is nil and the cleared handle is no longer a
live interval. -/
theorem c8_stop_idempotent (g : GalleryState) (w : TimerWorld) :
    Gallery.stopSlideShow (Gallery.stopSlideShow g w).1
          (Gallery.stopSlideShow g w).2 =
        Gallery.stopSlideShow g w ∧
      (Gallery.stopSlideShow g w).1.slideInterval = none ∧
      ∀ h : Nat, g.slideInterval = some h →
        h ∉ (Gallery.stopSlideShow g w).2.activeIntervals := by
  cases hsi : g.slideInterval with
  | none =>
    refine ⟨?_, ?_, ?_⟩
    · simp [Gallery.stopSlideShow, hsi]
    · simp [Gallery.stopSlideShow, hsi]
    · intro h hcontra
      exact Option.noConfusion hcontra
  | some h0 =>
    refine ⟨?_, ?_, ?_⟩
    · simp [Gallery.stopSlideShow, hsi]
    · simp [Gallery.stopSlideShow, hsi]
    · intro h hh hmem
      injection hh with he
      subst he
      simp only [Gallery.stopSlideShow, hsi] at hmem
      have hne := (List.mem_filter.mp hmem).2
      simp at hne

/-- C8 witness: stopping a playing slideshow whose interval handle 1 is live
nils the handle and removes 1 from the live interval set. -/
theorem c8_stop_witness :
    (Gallery.stopSlideShow gPlaying wPlaying).1.slideInterval = none ∧
      1 ∉ (Gallery.stopSlideShow gPlaying wPlaying).2.activeIntervals :=
  ⟨(c8_stop_idempotent gPlaying wPlaying).2.1,
    (c8_stop_idempotent gPlaying wPlaying).2.2 1 rfl⟩

/-- C1 counterexample: importing the batch
`[resOkA, resBad, resOkC]`, where `resBad` fails to decode, yields only the
record for `resOkA` — the record for `resOkC` is absent, and the batch emits
no persist and no render at all, refuting the claimed isolation of the
failure and the claimed single persist/render. -/
theorem c1_batch_isolation_counterexample :
    (Gallery.handleFileImport Gallery.initial 0 ""
          [resOkA, resBad, resOkC]).1.wallpapers.map Wallpaper.name =
        ["a.png"] ∧
      (Gallery.handleFileImport Gallery.initial 0 ""
          [resOkA, resBad, resOkC]).2 = [] := by
  exact ⟨rfl, rfl⟩

/-- C1 amended: a decode failure mid-batch aborts the rest of the batch —
importing `[r1, r2, r3]` where `r1` is accepted and decodes and `r2` is
accepted but fails to decode leaves exactly the record for `r1` appended
(`r2` and `r3` absent), and neither a persist nor a render is emitted for
the batch (the failure is caught and logged once at the batch boundary). -/
theorem c1_batch_abort_on_decode_failure (g : GalleryState) (gen : Nat)
    (now : String) (r1 r2 r3 : Resource)
    (h1 : Utils.isImage r1 = true) (h1d : r1.decoded.isSome = true)
    (h2 : Utils.isImage r2 = true) (h2d : r2.decoded = none) :
    (Gallery.handleFileImport g gen now [r1, r2, r3]).1.wallpapers.map
          Wallpaper.name =
        g.wallpapers.map Wallpaper.name ++ [r1.name] ∧
      (Gallery.handleFileImport g gen now [r1, r2, r3]).2 = [] := by
  obtain ⟨⟨w1, v1⟩, hdec⟩ := Option.isSome_iff_exists.mp h1d
  simp only [Gallery.handleFileImport, List.length_cons, Gallery.importLoop,
    h1, h2, if_true, Gallery.addWallpaper, hdec, h2d,
    Gallery.classifyWallpapers]
  constructor
  · simp
  · simp

/-- C1 witness for the amended theorem, at the concrete batch
`[resOkA, resBad, resOkC]` from the empty initial gallery. -/
theorem c1_batch_abort_witness :
    (Gallery.handleFileImport Gallery.initial 0 ""
          [resOkA, resBad, resOkC]).1.wallpapers.map Wallpaper.name =
        Gallery.initial.wallpapers.map Wallpaper.name ++ ["a.png"] ∧
      (Gallery.handleFileImport Gallery.initial 0 ""
          [resOkA, resBad, resOkC]).2 = [] :=
  c1_batch_abort_on_decode_failure Gallery.initial 0 "" resOkA resBad resOkC
    (by decide) (by decide) (by decide) rfl

/-- C4 counterexample: the Lightbox's own open handler performs no clamping —
opening a one-record snapshot at index 2 stores cursor 2, which is outside
`[0, 1)`, while still pinning the snapshot and setting `isOpen`. -/
theorem c4_open_no_clamp_counterexample :
    (Lightbox.doOpen Lightbox.initial
          { index := 2, wallpapers := [wpA] }).isOpen = true ∧
      (Lightbox.doOpen Lightbox.initial
          { index := 2, wallpapers := [wpA] }).currentIndex = 2 ∧
      ¬(Lightbox.doOpen Lightbox.initial
            { index := 2, wallpapers := [wpA] }).currentIndex <
          (([wpA] : List Wallpaper).length : Int) := by
  refine ⟨rfl, rfl, ?_⟩
  decide

/-- C4 amended: the overlay's open handler is a no-op on an empty snapshot
and otherwise pins the snapshot, sets `isOpen`, and stores the given index
unclamped; the clamp of the index into `[0, length)` is performed by
`Gallery.openLightbox` before the open request is emitted, so the composed
open path yields an in-range cursor for every integer index. -/
theorem c4_open_clamp_amended (sys : SystemState) (idx : Int) (t : WallType)
    (lb : LightboxState) (req : OpenRequest) :
    (req.wallpapers = [] → Lightbox.doOpen lb req = lb) ∧
      (Lightbox.doOpen lb req =
        if req.wallpapers.length = 0 then lb
        else { lb with currentIndex := req.index,
                       currentWallpapers := req.wallpapers, isOpen := true }) ∧
      (sys.gallery.subList t = [] → openLightboxFull sys idx t = sys) ∧
      (sys.gallery.subList t ≠ [] →
        (openLightboxFull sys idx t).lightbox.isOpen = true ∧
          (openLightboxFull sys idx t).lightbox.currentWallpapers =
            sys.gallery.subList t ∧
          0 ≤ (openLightboxFull sys idx t).lightbox.currentIndex ∧
          (openLightboxFull sys idx t).lightbox.currentIndex <
            ((sys.gallery.subList t).length : Int)) := by
  refine ⟨?_, rfl, ?_, ?_⟩
  · intro hreq
    simp [Lightbox.doOpen, hreq]
  · intro hempty
    simp [openLightboxFull, Gallery.openLightbox, hempty]
  · intro hne
    have hlen : sys.gallery.subList t ≠ [] := hne
    have hpos : 0 < (sys.gallery.subList t).length :=
      List.length_pos.mpr hlen
    simp only [openLightboxFull, Gallery.openLightbox]
    rw [if_neg (by omega)]
    simp only [Lightbox.doOpen]
    rw [if_neg (by omega)]
    refine ⟨rfl, rfl, ?_, ?_⟩
    · simp only []
      omega
    · simp only []
      omega

/-- C4 witness for the amended theorem: on the one-portrait-record gallery,
the composed open path at index 5 opens the overlay with an in-range cursor. -/
theorem c4_open_clamp_witness :
    (openLightboxFull sysOnePort 5 WallType.portrait).lightbox.isOpen =
        true ∧
      0 ≤ (openLightboxFull sysOnePort 5
          WallType.portrait).lightbox.currentIndex ∧
      (openLightboxFull sysOnePort 5
            WallType.portrait).lightbox.currentIndex <
        ((sysOnePort.gallery.subList WallType.portrait).length : Int) := by
  have h := (c4_open_clamp_amended sysOnePort 5 WallType.portrait
    Lightbox.initial { index := 0, wallpapers := [] }).2.2.2 (by decide)
  exact ⟨h.1, h.2.2.1, h.2.2.2⟩

/-- Overwriting the slideshow cursor with its own value is the identity. -/
lemma galleryState_set_cursor_self (g : GalleryState) (c : Int)
    (h : c = g.currentSlideIndex) :
    { g with currentSlideIndex := c } = g := by
  subst h
  rfl

/-- C5: on a landscape sub-list of at most one record (with the in-range
cursor such a state has), `nextSlide`/`prevSlide` leave the gallery state
unchanged; on a snapshot of at most one record the overlay's next/prev leave
the lightbox unchanged; and on empty lists `navigateVerticalGallery`, the
composed open path, and the overlay's open handler all perform no state
change (each being a total function, none can raise). -/
theorem c5_small_and_empty_list_safety (g g2 : GalleryState)
    (lb lb2 : LightboxState) (sys : SystemState) (d idx : Int) (t : WallType)
    (hl : g.landscapeWallpapers.length ≤ 1)
    (hc : g.landscapeWallpapers = [] ∨ g.currentSlideIndex = 0)
    (hlb : lb.currentWallpapers.length ≤ 1)
    (hp : g2.portraitWallpapers = [])
    (hs : sys.gallery.subList t = []) :
    Gallery.nextSlide g = g ∧
      Gallery.prevSlide g = g ∧
      Lightbox.next lb = lb ∧
      Lightbox.prev lb = lb ∧
      Gallery.navigateVerticalGallery g2 d = g2 ∧
      openLightboxFull sys idx t = sys ∧
      Lightbox.doOpen lb2 { index := idx, wallpapers := [] } = lb2 := by
  have hcases : g.landscapeWallpapers.length = 0 ∨
      (g.landscapeWallpapers.length = 1 ∧ g.currentSlideIndex = 0) := by
    rcases hc with hc | hc
    · left
      rw [hc]
      rfl
    · rcases Nat.lt_or_ge g.landscapeWallpapers.length 1 with h | h
      · left; omega
      · right; exact ⟨by omega, hc⟩
  refine ⟨?_, ?_, ?_, ?_, ?_, ?_, ?_⟩
  · rcases hcases with hz | ⟨h1, hc0⟩
    · unfold Gallery.nextSlide
      rw [if_pos hz]
    · unfold Gallery.nextSlide
      rw [if_neg (by omega)]
      refine galleryState_set_cursor_self g _ ?_
      rw [hc0, h1]
      decide
  · rcases hcases with hz | ⟨h1, hc0⟩
    · unfold Gallery.prevSlide
      rw [if_pos hz]
    · unfold Gallery.prevSlide
      rw [if_neg (by omega)]
      refine galleryState_set_cursor_self g _ ?_
      rw [hc0, h1]
      decide
  · unfold Lightbox.next
    rw [if_pos hlb]
  · unfold Lightbox.prev
    rw [if_pos hlb]
  · unfold Gallery.navigateVerticalGallery
    rw [if_pos (by rw [hp]; rfl)]
  · simp [openLightboxFull, Gallery.openLightbox, hs]
  · simp [Lightbox.doOpen]

/-- C5 witness: the concrete one-landscape-record gallery, the concrete
one-record overlay snapshot, and the one-portrait-record page state (whose
landscape sub-list is empty) all exhibit the no-ops. -/
theorem c5_safety_witness :
    Gallery.nextSlide gOneLand = gOneLand ∧
      Gallery.prevSlide gOneLand = gOneLand ∧
      Lightbox.next lbOneOpen = lbOneOpen ∧
      Gallery.navigateVerticalGallery gOneLand (-1) = gOneLand ∧
      openLightboxFull sysOnePort 3 WallType.landscape = sysOnePort := by
  have h := c5_small_and_empty_list_safety gOneLand gOneLand lbOneOpen
    lbOneOpen sysOnePort (-1) 3 WallType.landscape
    (by decide) (Or.inr (by decide)) (by decide) (by decide) (by decide)
  exact ⟨h.1, h.2.1, h.2.2.1, h.2.2.2.2.1, h.2.2.2.2.2.1⟩

/-- C6: from an in-range cursor `c` over a non-empty list of length `N`,
applying the slideshow's `nextSlide` `N` times returns the cursor to `c`,
and `prevSlide` right after `nextSlide` returns it to `c`; the same holds
for the overlay's next/prev over its pinned snapshot. -/
theorem c6_cyclic_cursor (g : GalleryState) (lb : LightboxState)
    (hN : 1 ≤ g.landscapeWallpapers.length)
    (hc0 : 0 ≤ g.currentSlideIndex)
    (hcN : g.currentSlideIndex < (g.landscapeWallpapers.length : Int))
    (hM : 1 ≤ lb.currentWallpapers.length)
    (hl0 : 0 ≤ lb.currentIndex)
    (hlM : lb.currentIndex < (lb.currentWallpapers.length : Int)) :
    (Gallery.nextSlide^[g.landscapeWallpapers.length] g).currentSlideIndex =
        g.currentSlideIndex ∧
      (Gallery.prevSlide (Gallery.nextSlide g)).currentSlideIndex =
        g.currentSlideIndex ∧
      (Lightbox.next^[lb.currentWallpapers.length] lb).currentIndex =
        lb.currentIndex ∧
      (Lightbox.prev (Lightbox.next lb)).currentIndex = lb.currentIndex := by
  refine ⟨?_, ?_, ?_, ?_⟩
  · obtain ⟨hland, hcur⟩ :=
      nextSlide_iter g (by omega) hc0 hcN g.landscapeWallpapers.length
    rw [hcur]
    have hsum : g.currentSlideIndex + (g.landscapeWallpapers.length : Int) =
        g.currentSlideIndex + (g.landscapeWallpapers.length : Int) * 1 := by
      ring
    rw [hsum, Int.add_mul_emod_self_left, Int.emod_eq_of_lt hc0 hcN]
  · have hland := nextSlide_landscape g
    have hcur1 := nextSlide_cursor g (by omega) hc0
    have h1nn : 0 ≤ (Gallery.nextSlide g).currentSlideIndex := by
      rw [hcur1]
      exact Int.emod_nonneg _ (by positivity)
    rw [prevSlide_cursor _ (by rw [hland]; omega) h1nn, hland, hcur1]
    have hsplit : (g.currentSlideIndex + 1) %
          (g.landscapeWallpapers.length : Int) - 1 +
          (g.landscapeWallpapers.length : Int) =
        (g.currentSlideIndex + 1) % (g.landscapeWallpapers.length : Int) +
          ((g.landscapeWallpapers.length : Int) - 1) := by
      ring
    rw [hsplit, emod_add_left_reduce]
    have hsplit2 : g.currentSlideIndex + 1 +
          ((g.landscapeWallpapers.length : Int) - 1) =
        g.currentSlideIndex + (g.landscapeWallpapers.length : Int) * 1 := by
      ring
    rw [hsplit2, Int.add_mul_emod_self_left, Int.emod_eq_of_lt hc0 hcN]
  · rcases Nat.lt_or_ge lb.currentWallpapers.length 2 with hM1 | hM2
    · have h1 : lb.currentWallpapers.length = 1 := by omega
      have hid : Lightbox.next lb = lb := by
        unfold Lightbox.next
        rw [if_pos (by omega)]
      rw [h1, Function.iterate_one, hid]
    · obtain ⟨hwp, hcur⟩ :=
        lightboxNext_iter lb hM2 hl0 hlM lb.currentWallpapers.length
      rw [hcur]
      have hsum : lb.currentIndex + (lb.currentWallpapers.length : Int) =
          lb.currentIndex + (lb.currentWallpapers.length : Int) * 1 := by
        ring
      rw [hsum, Int.add_mul_emod_self_left, Int.emod_eq_of_lt hl0 hlM]
  · rcases Nat.lt_or_ge lb.currentWallpapers.length 2 with hM1 | hM2
    · have hid : Lightbox.next lb = lb := by
        unfold Lightbox.next
        rw [if_pos (by omega)]
      have hid2 : Lightbox.prev lb = lb := by
        unfold Lightbox.prev
        rw [if_pos (by omega)]
      rw [hid, hid2]
    · have hwp := lightboxNext_wallpapers lb
      have hcur1 := lightboxNext_cursor lb hM2 hl0
      have h1nn : 0 ≤ (Lightbox.next lb).currentIndex := by
        rw [hcur1]
        exact Int.emod_nonneg _ (by positivity)
      rw [lightboxPrev_cursor _ (by rw [hwp]; omega) h1nn, hwp, hcur1]
      have hsplit : (lb.currentIndex + 1) %
            (lb.currentWallpapers.length : Int) - 1 +
            (lb.currentWallpapers.length : Int) =
          (lb.currentIndex + 1) % (lb.currentWallpapers.length : Int) +
            ((lb.currentWallpapers.length : Int) - 1) := by
        ring
      rw [hsplit, emod_add_left_reduce]
      have hsplit2 : lb.currentIndex + 1 +
            ((lb.currentWallpapers.length : Int) - 1) =
          lb.currentIndex + (lb.currentWallpapers.length : Int) * 1 := by
        ring
      rw [hsplit2, Int.add_mul_emod_self_left, Int.emod_eq_of_lt hl0 hlM]

/-- C6 witness: the two-landscape-record gallery at cursor 0 and the open
two-record overlay at cursor 1 both cycle back after N = 2 steps, and prev
undoes next. -/
theorem c6_cyclic_cursor_witness :
    (Gallery.nextSlide^[gTwoLand.landscapeWallpapers.length]
          gTwoLand).currentSlideIndex = gTwoLand.currentSlideIndex ∧
      (Gallery.prevSlide (Gallery.nextSlide gTwoLand)).currentSlideIndex =
        gTwoLand.currentSlideIndex ∧
      (Lightbox.next^[lbTwoOpen.currentWallpapers.length]
          lbTwoOpen).currentIndex = lbTwoOpen.currentIndex ∧
      (Lightbox.prev (Lightbox.next lbTwoOpen)).currentIndex =
        lbTwoOpen.currentIndex :=
  c6_cyclic_cursor gTwoLand lbTwoOpen (by decide) (by decide) (by decide)
    (by decide) (by decide) (by decide)

/-- C9 counterexample: the record `wpWideZero` has zero height (malformed)
yet positive width, so `width > height` holds and classification places it
in the landscape bucket, not the portrait bucket as claimed. -/
theorem c9_malformed_portrait_counterexample :
    (Gallery.classifyWallpapers
          { Gallery.initial with
              wallpapers := [wpWideZero] }).landscapeWallpapers =
        [wpWideZero] ∧
      (Gallery.classifyWallpapers
          { Gallery.initial with
              wallpapers := [wpWideZero] }).portraitWallpapers = [] := by
  exact ⟨rfl, rfl⟩

/-- C9 amended: zero or negative dimensions are not validated and flow
through classification without error; such a record lands in the portrait
bucket exactly when `height >= width` (so a 0 × 0 record goes portrait by
the tie rule) and in the landscape bucket exactly when `width > height`,
never in both. -/
theorem c9_malformed_classification_amended (g : GalleryState)
    (r : Wallpaper) (hmem : r ∈ g.wallpapers)
    (_hmal : r.width ≤ 0 ∨ r.height ≤ 0) :
    (r ∈ (Gallery.classifyWallpapers g).portraitWallpapers ↔
        r.height ≥ r.width) ∧
      (r ∈ (Gallery.classifyWallpapers g).landscapeWallpapers ↔
        r.width > r.height) ∧
      ¬(r ∈ (Gallery.classifyWallpapers g).portraitWallpapers ∧
          r ∈ (Gallery.classifyWallpapers g).landscapeWallpapers) := by
  have hport : r ∈ (Gallery.classifyWallpapers g).portraitWallpapers ↔
      r.height ≥ r.width := by
    simp [Gallery.classifyWallpapers, List.mem_filter, hmem,
      Utils.isPortrait]
  have hland : r ∈ (Gallery.classifyWallpapers g).landscapeWallpapers ↔
      r.width > r.height := by
    simp [Gallery.classifyWallpapers, List.mem_filter, hmem,
      Utils.isLandscape]
  refine ⟨hport, hland, ?_⟩
  rintro ⟨h1, h2⟩
  rw [hport] at h1
  rw [hland] at h2
  omega

/-- C9 witness: the malformed 0 × 0 record in the concrete malformed gallery
is in the portrait bucket (by the tie rule) and not in the landscape one. -/
theorem c9_malformed_witness :
    wpZero ∈ (Gallery.classifyWallpapers gMalformed).portraitWallpapers ∧
      wpZero ∉ (Gallery.classifyWallpapers gMalformed).landscapeWallpapers := by
  have h := c9_malformed_classification_amended gMalformed wpZero
    (by decide) (Or.inl (by decide))
  refine ⟨h.1.mpr (by decide), ?_⟩
  intro hmem
  exact absurd (h.2.1.mp hmem) (by decide)

/-- C10: while the overlay is open, one ArrowRight (or ArrowLeft) keydown is
handled by both document-level listeners — the overlay advances (retreats)
over its pinned snapshot and the Gallery's handler, which never checks
`isOpen`, advances (retreats) the slideshow — so with at least two records
in each list and in-range cursors, both cursors move on the same keypress. -/
theorem c10_double_keyboard_handling (sys : SystemState) (w : TimerWorld)
    (hopen : sys.lightbox.isOpen = true)
    (hM : 2 ≤ sys.lightbox.currentWallpapers.length)
    (hl0 : 0 ≤ sys.lightbox.currentIndex)
    (hlM : sys.lightbox.currentIndex <
      (sys.lightbox.currentWallpapers.length : Int))
    (hN : 2 ≤ sys.gallery.landscapeWallpapers.length)
    (hc0 : 0 ≤ sys.gallery.currentSlideIndex)
    (hcN : sys.gallery.currentSlideIndex <
      (sys.gallery.landscapeWallpapers.length : Int)) :
    (dispatchKeydown sys w Key.arrowRight).1.lightbox =
        Lightbox.next sys.lightbox ∧
      (dispatchKeydown sys w Key.arrowRight).1.gallery =
        Gallery.nextSlide sys.gallery ∧
      (dispatchKeydown sys w Key.arrowRight).1.lightbox.currentIndex ≠
        sys.lightbox.currentIndex ∧
      (dispatchKeydown sys w Key.arrowRight).1.gallery.currentSlideIndex ≠
        sys.gallery.currentSlideIndex ∧
      (dispatchKeydown sys w Key.arrowLeft).1.lightbox =
        Lightbox.prev sys.lightbox ∧
      (dispatchKeydown sys w Key.arrowLeft).1.gallery =
        Gallery.prevSlide sys.gallery ∧
      (dispatchKeydown sys w Key.arrowLeft).1.lightbox.currentIndex ≠
        sys.lightbox.currentIndex ∧
      (dispatchKeydown sys w Key.arrowLeft).1.gallery.currentSlideIndex ≠
        sys.gallery.currentSlideIndex := by
  have hlbR : (dispatchKeydown sys w Key.arrowRight).1.lightbox =
      Lightbox.next sys.lightbox := by
    simp [dispatchKeydown, Lightbox.handleKeyboard,
      Gallery.handleKeyboardNavigation, hopen]
  have hgR : (dispatchKeydown sys w Key.arrowRight).1.gallery =
      Gallery.nextSlide sys.gallery := rfl
  have hlbL : (dispatchKeydown sys w Key.arrowLeft).1.lightbox =
      Lightbox.prev sys.lightbox := by
    simp [dispatchKeydown, Lightbox.handleKeyboard,
      Gallery.handleKeyboardNavigation, hopen]
  have hgL : (dispatchKeydown sys w Key.arrowLeft).1.gallery =
      Gallery.prevSlide sys.gallery := rfl
  refine ⟨hlbR, hgR, ?_, ?_, hlbL, hgL, ?_, ?_⟩
  · rw [hlbR, lightboxNext_cursor _ hM hl0]
    exact emod_succ_ne _ _ (by omega) hl0 hlM
  · rw [hgR, nextSlide_cursor _ (by omega) hc0]
    exact emod_succ_ne _ _ (by omega) hc0 hcN
  · rw [hlbL, lightboxPrev_cursor _ hM hl0]
    exact emod_pred_ne _ _ (by omega) hl0 hlM
  · rw [hgL, prevSlide_cursor _ (by omega) hc0]
    exact emod_pred_ne _ _ (by omega) hc0 hcN

/-- C10 witness: on the page state with two landscape records (cursor 0) and
the open two-record overlay (cursor 1), one ArrowRight moves both cursors. -/
theorem c10_double_keyboard_witness :
    (dispatchKeydown sysBothOpen { activeIntervals := [], nextHandle := 1 }
          Key.arrowRight).1.lightbox.currentIndex ≠
        sysBothOpen.lightbox.currentIndex ∧
      (dispatchKeydown sysBothOpen { activeIntervals := [], nextHandle := 1 }
            Key.arrowRight).1.gallery.currentSlideIndex ≠
        sysBothOpen.gallery.currentSlideIndex := by
  have h := c10_double_keyboard_handling sysBothOpen
    { activeIntervals := [], nextHandle := 1 } (by decide) (by decide)
    (by decide) (by decide) (by decide) (by decide) (by decide)
  exact ⟨h.2.2.1, h.2.2.2.1⟩
